import Mathlib

/-!
Shallow embedding of the `manager` package of the bff-template repository:
the manifest ledger (manifest.py), the service-account manager
(service_account_manager.py), and the Init/Deploy/Clean workflows
(init.py, deploy.py, clean.py), together with proofs of the frozen claims.

External commands (gcloud, gh, docker, colima, npm, uv, git) are modelled by
an environment that fixes the outcome of each call site; each embedded
function additionally returns the ordered list of external calls and local
file mutations it performed, so that "zero Gateway calls" style claims are
statable.  Timestamps are abstract naturals threaded as a `now` argument.
-/

/-- Values stored in an operation record's `details` mapping: the source
stores strings and lists of strings there. -/
inductive DVal where
  | s (v : String)
  | l (vs : List String)
deriving DecidableEq, Repr

/-- One entry of the manifest's `operations` list, as built by
`ManifestManager.log_operation`. -/
structure OpRecord where
  timestamp : Nat
  operation : String
  details : List (String × DVal)
deriving DecidableEq, Repr

/-- The manifest file contents (manifest.py `initial_data` shape). -/
structure Manifest where
  created_at : Nat
  operations : List OpRecord
  state : List (String × Bool)
  config : List (String × String)
deriving DecidableEq, Repr

/-- Python-dict style lookup on an association list (`d.get(k)`). -/
def dictGet {α : Type} : List (String × α) → String → Option α
  | [], _ => none
  | (k1, v1) :: rest, k => if k1 = k then some v1 else dictGet rest k

/-- Python-dict style update on an association list (`d[k] = v`): overwrite
in place when the key is present, append otherwise. -/
def dictSet {α : Type} : List (String × α) → String → α → List (String × α)
  | [], k, v => [(k, v)]
  | (k1, v1) :: rest, k, v =>
      if k1 = k then (k, v) :: rest else (k1, v1) :: dictSet rest k v

theorem dictGet_dictSet_self {α : Type} (d : List (String × α)) (k : String) (v : α) :
    dictGet (dictSet d k v) k = some v := by
  induction d with
  | nil => simp [dictGet, dictSet]
  | cons hd tl ih =>
      obtain ⟨k1, v1⟩ := hd
      by_cases h : k1 = k <;> simp [dictGet, dictSet, h, ih]

/-- The initial `state` mapping written by `_ensure_manifest_exists`. -/
def initialStateFlags : List (String × Bool) :=
  [("initialized", false), ("deployed", false), ("docker_built", false),
   ("service_account_created", false), ("github_secrets_configured", false)]

/-- The `initial_data` dictionary of `ManifestManager._ensure_manifest_exists`,
stamped with the creation time. -/
def ManifestManager.initialManifest (now : Nat) : Manifest :=
  { created_at := now, operations := [], state := initialStateFlags, config := [] }

/-- `ManifestManager._ensure_manifest_exists`: create the manifest only when
the backing file is absent (`none`); an existing manifest is untouched. -/
def ManifestManager.ensure_manifest_exists (now : Nat) : Option Manifest → Manifest
  | none => ManifestManager.initialManifest now
  | some m => m

/-- `ManifestManager.log_operation`: append one operation entry. -/
def ManifestManager.log_operation (now : Nat) (operation : String)
    (details : List (String × DVal)) (m : Manifest) : Manifest :=
  { m with operations :=
      m.operations ++ [{ timestamp := now, operation := operation, details := details }] }

/-- `ManifestManager.update_state`. -/
def ManifestManager.update_state (key : String) (value : Bool) (m : Manifest) : Manifest :=
  { m with state := dictSet m.state key value }

/-- `ManifestManager.get_state` (`manifest["state"].get(key)`). -/
def ManifestManager.get_state (m : Manifest) (key : String) : Option Bool :=
  dictGet m.state key

/-- Python truthiness of `get_state`, as used in `if manifest.get_state(...)`. -/
def ManifestManager.stateTruthy (m : Manifest) (key : String) : Bool :=
  (ManifestManager.get_state m key).getD false

/-- `ManifestManager.update_config`. -/
def ManifestManager.update_config (key : String) (value : String) (m : Manifest) : Manifest :=
  { m with config := dictSet m.config key value }

/-- `ManifestManager.get_config` with default. -/
def ManifestManager.get_config (m : Manifest) (key : String) (default : String) : String :=
  (dictGet m.config key).getD default

/-- `ManifestManager.get_all_operations`. -/
def ManifestManager.get_all_operations (m : Manifest) : List OpRecord :=
  m.operations

/-- `ManifestManager.get_all_state`. -/
def ManifestManager.get_all_state (m : Manifest) : List (String × Bool) :=
  m.state

/-- `ManifestManager.get_all_config`. -/
def ManifestManager.get_all_config (m : Manifest) : List (String × String) :=
  m.config

/-- `ManifestManager.reset_manifest`: delete the file, then recreate it via
`_ensure_manifest_exists` at the current time. -/
def ManifestManager.reset_manifest (now : Nat) (_m : Manifest) : Manifest :=
  ManifestManager.ensure_manifest_exists now none

/-- The canonical empty shape of the ledger: no operations, the five
recognized flags all false, empty config (spec section 3 invariant). -/
def canonicalEmpty (m : Manifest) : Prop :=
  ManifestManager.get_all_operations m = [] ∧
  ManifestManager.get_all_state m = initialStateFlags ∧
  ManifestManager.get_all_config m = []

instance (m : Manifest) : Decidable (canonicalEmpty m) := by
  unfold canonicalEmpty
  infer_instance

/-- ProjectConfig (config.py): the fields the workflows read. -/
structure ProjectCfg where
  project_name : String
  gcp_project_id : String
  default_region : String
deriving DecidableEq, Repr

/-- `ProjectConfig.service_account_email`. -/
def ProjectCfg.service_account_email (c : ProjectCfg) : String :=
  c.project_name ++ "-sa@" ++ c.gcp_project_id ++ ".iam.gserviceaccount.com"

/-- `ProjectConfig.service_account_name`. -/
def ProjectCfg.service_account_name (c : ProjectCfg) : String :=
  (c.project_name.toUpper.replace "-" "_") ++ "_SA"

/-- `ProjectConfig.image_url`. -/
def ProjectCfg.image_url (c : ProjectCfg) : String :=
  "gcr.io/" ++ c.gcp_project_id ++ "/" ++ c.project_name

/-- The config of this repository's own checkout (directory bff-template). -/
def cfg0 : ProjectCfg :=
  { project_name := "bff-template",
    gcp_project_id := "marketing-innovation-450013",
    default_region := "europe-west4" }

/-- External (Gateway) calls and local file mutations performed by the
workflows, in the order the source issues them. -/
inductive GCall where
  | saDescribe
  | saCreate
  | addRole (role : String)
  | removeRole (role : String)
  | keysCreate (file : String)
  | ghSecretSet (name : String)
  | fileRemove (file : String)
  | cicdWrite
  | colimaStart
  | colimaStop
  | dockerBuild
  | dockerPush
  | runDeploy (region : String)
  | envFileWrite
  | projectFilesWrite
  | frontendSetup
  | uvSync
  | ghRepoView
  | ghRepoDelete
  | dockerPs
  | dockerStopCmd
  | dockerRmi
  | runServicesDelete
  | saDelete
  | rmtree
  | gitClone
deriving DecidableEq, Repr

/-- Result of one workflow step: the returned boolean, the manifest after the
step, and the external calls / file mutations the step performed. -/
structure StepResult where
  ok : Bool
  manifest : Manifest
  calls : List GCall
deriving DecidableEq, Repr

/-- Outcomes fixed for the service-account manager's external calls: the
result of the `describe` existence probe, of `service-accounts create`, of
each per-role IAM policy binding, and of `keys create`. -/
structure SAEnv where
  saExists : Bool
  saCreateOk : Bool
  roleAddOk : String → Bool
  roleRemoveOk : String → Bool
  keyCreateOk : Bool

/-- Default roles of `ServiceAccountManager.add_permissions`. -/
def ServiceAccountManager.defaultAddRoles : List String :=
  ["roles/artifactregistry.writer",
   "roles/run.developer",
   "roles/iam.serviceAccountUser"]

/-- Default roles of `ServiceAccountManager.remove_permissions`. -/
def ServiceAccountManager.defaultRemoveRoles : List String :=
  ["roles/run.admin",
   "roles/iam.serviceAccountUser",
   "roles/storage.admin",
   "roles/artifactregistry.admin",
   "roles/run.developer"]

/-- Whether the per-role loop of add/remove permissions runs to completion:
the source raises `CalledProcessError` at the first failing binding, caught
by the surrounding handler. -/
def rolesAllOk (okFn : String → Bool) : List String → Bool
  | [] => true
  | r :: rest => okFn r && rolesAllOk okFn rest

/-- The gcloud calls issued by the per-role loop: every role up to and
including the first failing one. -/
def rolesCalls (okFn : String → Bool) (mk : String → GCall) : List String → List GCall
  | [] => []
  | r :: rest => if okFn r then mk r :: rolesCalls okFn mk rest else [mk r]

/-- `ServiceAccountManager.create`: probe existence first; when the account
exists, log with status already_exists and return success without a creation
call; otherwise attempt creation and log only on success. -/
def ServiceAccountManager.create (env : SAEnv) (now : Nat) (cfg : ProjectCfg)
    (m : Manifest) : StepResult :=
  if env.saExists then
    { ok := true,
      manifest := ManifestManager.log_operation now "create_service_account"
        [("email", DVal.s cfg.service_account_email),
         ("status", DVal.s "already_exists")] m,
      calls := [GCall.saDescribe] }
  else if env.saCreateOk then
    { ok := true,
      manifest := ManifestManager.log_operation now "create_service_account"
        [("email", DVal.s cfg.service_account_email)] m,
      calls := [GCall.saDescribe, GCall.saCreate] }
  else
    { ok := false, manifest := m, calls := [GCall.saDescribe, GCall.saCreate] }

/-- `ServiceAccountManager.add_permissions`. -/
def ServiceAccountManager.add_permissions (env : SAEnv) (now : Nat) (cfg : ProjectCfg)
    (roles : Option (List String)) (m : Manifest) : StepResult :=
  let rs := roles.getD ServiceAccountManager.defaultAddRoles
  if rolesAllOk env.roleAddOk rs then
    { ok := true,
      manifest := ManifestManager.log_operation now "add_permissions"
        [("email", DVal.s cfg.service_account_email), ("roles", DVal.l rs)] m,
      calls := rolesCalls env.roleAddOk GCall.addRole rs }
  else
    { ok := false, manifest := m, calls := rolesCalls env.roleAddOk GCall.addRole rs }

/-- `ServiceAccountManager.remove_permissions`. -/
def ServiceAccountManager.remove_permissions (env : SAEnv) (now : Nat) (cfg : ProjectCfg)
    (roles : Option (List String)) (m : Manifest) : StepResult :=
  let rs := roles.getD ServiceAccountManager.defaultRemoveRoles
  if rolesAllOk env.roleRemoveOk rs then
    { ok := true,
      manifest := ManifestManager.log_operation now "remove_permissions"
        [("email", DVal.s cfg.service_account_email), ("roles", DVal.l rs)] m,
      calls := rolesCalls env.roleRemoveOk GCall.removeRole rs }
  else
    { ok := false, manifest := m, calls := rolesCalls env.roleRemoveOk GCall.removeRole rs }

/-- `ServiceAccountManager.create_key`: run `keys create`, log on success. -/
def ServiceAccountManager.create_key (env : SAEnv) (now : Nat) (cfg : ProjectCfg)
    (key_file : String) (m : Manifest) : StepResult :=
  if env.keyCreateOk then
    { ok := true,
      manifest := ManifestManager.log_operation now "create_key"
        [("email", DVal.s cfg.service_account_email),
         ("key_file", DVal.s key_file)] m,
      calls := [GCall.keysCreate key_file] }
  else
    { ok := false, manifest := m, calls := [GCall.keysCreate key_file] }

/-- `ServiceAccountManager.setup`: create, then default permission grants,
then set the service_account_created flag. -/
def ServiceAccountManager.setup (env : SAEnv) (now : Nat) (cfg : ProjectCfg)
    (m : Manifest) : StepResult :=
  let r1 := ServiceAccountManager.create env now cfg m
  if !r1.ok then
    { ok := false, manifest := r1.manifest, calls := r1.calls }
  else
    let r2 := ServiceAccountManager.add_permissions env now cfg none r1.manifest
    if !r2.ok then
      { ok := false, manifest := r2.manifest, calls := r1.calls ++ r2.calls }
    else
      { ok := true,
        manifest := ManifestManager.update_state "service_account_created" true r2.manifest,
        calls := r1.calls ++ r2.calls }

/-- The three ways `GitHubManager.set_secret` can come back to its caller:
success, a caught nonzero exit of `gh secret set` returning False, or an
exception of another class (e.g. the executable missing) propagating out. -/
inductive SecretOutcome where
  | ok
  | fail
  | exc
deriving DecidableEq, Repr

/-- Outcomes fixed for the Deploy workflow: the two prompts and each
external step, plus the service-account sub-environment. -/
structure DeployEnv where
  redeployAnswer : Bool
  confirmAnswer : Bool
  cicdOk : Bool
  colimaStartOk : Bool
  dockerBuildOk : Bool
  dockerPushOk : Bool
  runDeployOk : Bool
  sa : SAEnv
  setSecret : SecretOutcome

/-- `DeployManager.update_cicd`: rewrite the CI/CD file, log on success. -/
def DeployManager.update_cicd (env : DeployEnv) (now : Nat) (cfg : ProjectCfg)
    (m : Manifest) : StepResult :=
  if env.cicdOk then
    { ok := true,
      manifest := ManifestManager.log_operation now "update_cicd"
        [("service_account", DVal.s cfg.service_account_name),
         ("image_url", DVal.s cfg.image_url)] m,
      calls := [GCall.cicdWrite] }
  else
    { ok := false, manifest := m, calls := [GCall.cicdWrite] }

/-- `DeployManager.build_and_push_docker`: start colima, build, push; set
the docker_built flag and log only after all three succeed; stop colima on
build or push failure. -/
def DeployManager.build_and_push_docker (env : DeployEnv) (now : Nat) (cfg : ProjectCfg)
    (m : Manifest) : StepResult :=
  if !env.colimaStartOk then
    { ok := false, manifest := m, calls := [GCall.colimaStart] }
  else if !env.dockerBuildOk then
    { ok := false, manifest := m,
      calls := [GCall.colimaStart, GCall.dockerBuild, GCall.colimaStop] }
  else if !env.dockerPushOk then
    { ok := false, manifest := m,
      calls := [GCall.colimaStart, GCall.dockerBuild, GCall.dockerPush, GCall.colimaStop] }
  else
    { ok := true,
      manifest := ManifestManager.log_operation now "docker_build"
        [("image_url", DVal.s cfg.image_url)]
        (ManifestManager.update_state "docker_built" true m),
      calls := [GCall.colimaStart, GCall.dockerBuild, GCall.dockerPush] }

/-- `DeployManager.deploy_to_cloud_run`: on success set the deployed flag,
record the region in config, and log. -/
def DeployManager.deploy_to_cloud_run (env : DeployEnv) (now : Nat) (cfg : ProjectCfg)
    (region : String) (m : Manifest) : StepResult :=
  if !env.runDeployOk then
    { ok := false, manifest := m, calls := [GCall.runDeploy region] }
  else
    { ok := true,
      manifest := ManifestManager.log_operation now "deploy_cloud_run"
        [("region", DVal.s region), ("service_name", DVal.s cfg.project_name)]
        (ManifestManager.update_config "region" region
          (ManifestManager.update_state "deployed" true m)),
      calls := [GCall.runDeploy region] }

/-- Result of `setup_github_secrets`, additionally tracking whether the
local key file sa-key.json exists when the step returns. -/
structure SecretsResult where
  ok : Bool
  manifest : Manifest
  keyFileExists : Bool
  calls : List GCall
deriving DecidableEq, Repr

/-- `DeployManager.setup_github_secrets`: create the key file, upload it as
a GitHub secret, remove the file and set the flag on success; the
`except` handler removes the file when the upload raises, but the path where
`set_secret` returns False returns without removing it. -/
def DeployManager.setup_github_secrets (env : DeployEnv) (now : Nat) (cfg : ProjectCfg)
    (m : Manifest) (keyFile0 : Bool) : SecretsResult :=
  let rKey := ServiceAccountManager.create_key env.sa now cfg "sa-key.json" m
  if !rKey.ok then
    { ok := false, manifest := rKey.manifest, keyFileExists := keyFile0,
      calls := rKey.calls }
  else
    match env.setSecret with
    | SecretOutcome.fail =>
        { ok := false, manifest := rKey.manifest, keyFileExists := true,
          calls := rKey.calls ++ [GCall.ghSecretSet cfg.service_account_name] }
    | SecretOutcome.exc =>
        { ok := false, manifest := rKey.manifest, keyFileExists := false,
          calls := rKey.calls ++ [GCall.ghSecretSet cfg.service_account_name,
                                  GCall.fileRemove "sa-key.json"] }
    | SecretOutcome.ok =>
        { ok := true,
          manifest := ManifestManager.log_operation now "setup_github_secrets"
            [("secret_name", DVal.s cfg.service_account_name)]
            (ManifestManager.update_state "github_secrets_configured" true rKey.manifest),
          keyFileExists := false,
          calls := rKey.calls ++ [GCall.ghSecretSet cfg.service_account_name,
                                  GCall.fileRemove "sa-key.json"] }

/-- `DeployManager.deploy`: the full workflow; fail-fast across steps. -/
def DeployManager.deploy (env : DeployEnv) (now : Nat) (cfg : ProjectCfg)
    (regionOpt : Option String) (m : Manifest) : SecretsResult :=
  let region := regionOpt.getD cfg.default_region
  if ManifestManager.stateTruthy m "deployed" && !env.redeployAnswer then
    { ok := false, manifest := m, keyFileExists := false, calls := [] }
  else if !env.confirmAnswer then
    { ok := false, manifest := m, keyFileExists := false, calls := [] }
  else
    let r1 := DeployManager.update_cicd env now cfg m
    if !r1.ok then
      { ok := false, manifest := r1.manifest, keyFileExists := false, calls := r1.calls }
    else
      let r2 := DeployManager.build_and_push_docker env now cfg r1.manifest
      if !r2.ok then
        { ok := false, manifest := r2.manifest, keyFileExists := false,
          calls := r1.calls ++ r2.calls }
      else
        let r3 := DeployManager.deploy_to_cloud_run env now cfg region r2.manifest
        if !r3.ok then
          { ok := false, manifest := r3.manifest, keyFileExists := false,
            calls := r1.calls ++ r2.calls ++ r3.calls ++ [GCall.colimaStop] }
        else
          let r4 := ServiceAccountManager.setup env.sa now cfg r3.manifest
          if !r4.ok then
            { ok := false, manifest := r4.manifest, keyFileExists := false,
              calls := r1.calls ++ r2.calls ++ r3.calls ++ r4.calls ++ [GCall.colimaStop] }
          else
            let r5 := DeployManager.setup_github_secrets env now cfg r4.manifest false
            if !r5.ok then
              { ok := false, manifest := r5.manifest, keyFileExists := r5.keyFileExists,
                calls := r1.calls ++ r2.calls ++ r3.calls ++ r4.calls ++ r5.calls
                         ++ [GCall.colimaStop] }
            else
              { ok := true, manifest := r5.manifest, keyFileExists := r5.keyFileExists,
                calls := r1.calls ++ r2.calls ++ r3.calls ++ r4.calls ++ r5.calls
                         ++ [GCall.colimaStop] }

/-- Outcomes fixed for the Init workflow: the re-init prompt answer and the
three fallible sub-steps. -/
structure InitEnv where
  reinitAnswer : Bool
  updateFilesOk : Bool
  frontendOk : Bool
  backendOk : Bool
deriving DecidableEq, Repr

/-- `InitManager.initialize` (named initializeProject here): the full local
initialization workflow. A declined re-initialization prompt returns before
any file mutation or external call; the initialized flag, project_name
config, and init log entry are written only after env-file creation, project
file updates, frontend setup, and backend sync all succeed. -/
def InitManager.initializeProject (env : InitEnv) (now : Nat) (cfg : ProjectCfg)
    (m : Manifest) : StepResult :=
  if ManifestManager.stateTruthy m "initialized" && !env.reinitAnswer then
    { ok := false, manifest := m, calls := [] }
  else if !env.updateFilesOk then
    { ok := false, manifest := m,
      calls := [GCall.envFileWrite, GCall.projectFilesWrite] }
  else if !env.frontendOk then
    { ok := false, manifest := m,
      calls := [GCall.envFileWrite, GCall.projectFilesWrite, GCall.frontendSetup] }
  else if !env.backendOk then
    { ok := false, manifest := m,
      calls := [GCall.envFileWrite, GCall.projectFilesWrite, GCall.frontendSetup,
                GCall.uvSync] }
  else
    { ok := true,
      manifest := ManifestManager.log_operation now "init" [("type", DVal.s "local")]
        (ManifestManager.update_config "project_name" cfg.project_name
          (ManifestManager.update_state "initialized" true m)),
      calls := [GCall.envFileWrite, GCall.projectFilesWrite, GCall.frontendSetup,
                GCall.uvSync] }

/-- Outcome of one external command in the Clean workflow: success, nonzero
exit (raises `CalledProcessError` under check=True, otherwise reported via
the return code), or executable missing (raises `FileNotFoundError`, which
none of the clean sub-steps catch). -/
inductive CmdOutcome where
  | ok
  | err
  | missing
deriving DecidableEq, Repr

/-- Whether the command comes back at all (rather than raising
`FileNotFoundError` for a missing executable). -/
def CmdOutcome.completes : CmdOutcome → Bool
  | CmdOutcome.missing => false
  | _ => true

/-- Outcomes fixed for the Clean workflow: the two prompts and each of its
external calls. -/
structure CleanEnv where
  confirmProject : Bool
  localConfirm : Bool
  ghRepoView : CmdOutcome
  ghRepoDelete : CmdOutcome
  dockerPs : CmdOutcome
  containersFound : Bool
  dockerStop : CmdOutcome
  dockerRmi : CmdOutcome
  runServicesDelete : CmdOutcome
  saDelete : CmdOutcome
  rmtreeOk : Bool
  gitCloneOk : Bool
deriving DecidableEq, Repr

/-- `CleanManager.cleanup_github` via `GitHubManager.delete_repository`:
a nonzero exit of `gh repo view` is caught inside `get_repo_name` and yields
False; `gh repo delete` runs with check=False; a missing `gh` executable
raises out (`.error` carries the calls made before the raise). -/
def CleanManager.cleanup_github (env : CleanEnv) :
    Except (List GCall) (Bool × List GCall) :=
  match env.ghRepoView with
  | CmdOutcome.missing => Except.error []
  | CmdOutcome.err => Except.ok (false, [GCall.ghRepoView])
  | CmdOutcome.ok =>
      match env.ghRepoDelete with
      | CmdOutcome.missing => Except.error [GCall.ghRepoView]
      | CmdOutcome.err => Except.ok (false, [GCall.ghRepoView, GCall.ghRepoDelete])
      | CmdOutcome.ok => Except.ok (true, [GCall.ghRepoView, GCall.ghRepoDelete])

/-- `DockerManager.stop_container` as called from cleanup: `docker ps` runs
without check (nonzero exit yields no container ids), `docker stop` runs
with check=False only when containers were listed; a missing `docker`
executable raises. -/
def CleanManager.stop_container (env : CleanEnv) :
    Except (List GCall) (List GCall) :=
  match env.dockerPs with
  | CmdOutcome.missing => Except.error []
  | CmdOutcome.err => Except.ok [GCall.dockerPs]
  | CmdOutcome.ok =>
      if env.containersFound then
        match env.dockerStop with
        | CmdOutcome.missing => Except.error [GCall.dockerPs]
        | _ => Except.ok [GCall.dockerPs, GCall.dockerStopCmd]
      else Except.ok [GCall.dockerPs]

/-- `CleanManager.cleanup_docker` via `DockerManager.cleanup`: stop
containers then remove the image (check=False); always reports success when
no exception escapes. -/
def CleanManager.cleanup_docker (env : CleanEnv) :
    Except (List GCall) (Bool × List GCall) :=
  match CleanManager.stop_container env with
  | Except.error cs => Except.error cs
  | Except.ok cs1 =>
      match env.dockerRmi with
      | CmdOutcome.missing => Except.error cs1
      | _ => Except.ok (true, cs1 ++ [GCall.dockerRmi])

/-- `CleanManager.cleanup_gcp`: delete the Cloud Run service when the ledger
says deployed, delete the service account (logging the deletion) when the
ledger says it was created; both gcloud calls run with check=False, so only
a missing executable raises. -/
def CleanManager.cleanup_gcp (env : CleanEnv) (now : Nat) (cfg : ProjectCfg)
    (m : Manifest) : Except (Manifest × List GCall) (Manifest × List GCall) :=
  let step1 : Except (List GCall) (List GCall) :=
    if ManifestManager.stateTruthy m "deployed" then
      match env.runServicesDelete with
      | CmdOutcome.missing => Except.error []
      | _ => Except.ok [GCall.runServicesDelete]
    else Except.ok []
  match step1 with
  | Except.error cs => Except.error (m, cs)
  | Except.ok cs1 =>
      if ManifestManager.stateTruthy m "service_account_created" then
        match env.saDelete with
        | CmdOutcome.missing => Except.error (m, cs1)
        | _ =>
            Except.ok
              (ManifestManager.log_operation now "delete_service_account"
                [("email", DVal.s cfg.service_account_email)] m,
               cs1 ++ [GCall.saDelete])
      else Except.ok (m, cs1)

/-- `CleanManager.cleanup_local`: prompt, then delete the working tree and
re-clone the template; any exception from the deletion is caught and turned
into False, and the clone result is ignored. -/
def CleanManager.cleanup_local (env : CleanEnv) : Bool × List GCall :=
  if !env.localConfirm then (false, [])
  else if env.rmtreeOk then (true, [GCall.rmtree, GCall.gitClone])
  else (false, [GCall.rmtree])

/-- Which of Clean's major phases were reached. -/
structure CleanPhases where
  github : Bool
  docker : Bool
  gcp : Bool
  finalPhase : Bool
deriving DecidableEq, Repr

/-- Result of a Clean run: `result = none` means an uncaught exception
propagated out of `clean`; otherwise the returned boolean. -/
structure CleanResult where
  result : Option Bool
  manifest : Manifest
  phases : CleanPhases
  calls : List GCall
deriving DecidableEq, Repr

/-- `CleanManager.clean`: confirmation, the cleanup log entry, then the
GitHub, Docker, and GCP phases with their boolean results ignored, then
either the local-deletion phase or (skip_local) a ledger reset. -/
def CleanManager.clean (env : CleanEnv) (now : Nat) (cfg : ProjectCfg)
    (skip_local : Bool) (m : Manifest) : CleanResult :=
  if !env.confirmProject then
    { result := some false, manifest := m,
      phases := ⟨false, false, false, false⟩, calls := [] }
  else
    let m1 := ManifestManager.log_operation now "cleanup" [("type", DVal.s "full")] m
    match CleanManager.cleanup_github env with
    | Except.error cs =>
        { result := none, manifest := m1,
          phases := ⟨true, false, false, false⟩, calls := cs }
    | Except.ok (_, cs1) =>
        match CleanManager.cleanup_docker env with
        | Except.error cs =>
            { result := none, manifest := m1,
              phases := ⟨true, true, false, false⟩, calls := cs1 ++ cs }
        | Except.ok (_, cs2) =>
            match CleanManager.cleanup_gcp env now cfg m1 with
            | Except.error (m2, cs) =>
                { result := none, manifest := m2,
                  phases := ⟨true, true, true, false⟩, calls := cs1 ++ cs2 ++ cs }
            | Except.ok (m2, cs3) =>
                if skip_local then
                  { result := some true,
                    manifest := ManifestManager.reset_manifest now m2,
                    phases := ⟨true, true, true, true⟩,
                    calls := cs1 ++ cs2 ++ cs3 }
                else
                  { result := some true, manifest := m2,
                    phases := ⟨true, true, true, true⟩,
                    calls := cs1 ++ cs2 ++ cs3 ++ (CleanManager.cleanup_local env).2 }

/-- A service-account environment in which every external call succeeds and
the account does not yet exist. -/
def saEnvAllOk : SAEnv :=
  { saExists := false, saCreateOk := true,
    roleAddOk := fun _ => true, roleRemoveOk := fun _ => true, keyCreateOk := true }

/-- Like saEnvAllOk but the existence probe reports the account present. -/
def saEnvExists : SAEnv :=
  { saExists := true, saCreateOk := true,
    roleAddOk := fun _ => true, roleRemoveOk := fun _ => true, keyCreateOk := true }

/-- A deploy environment where every prompt is answered yes and every
external step succeeds. -/
def deployEnvBase : DeployEnv :=
  { redeployAnswer := false, confirmAnswer := true, cicdOk := true,
    colimaStartOk := true, dockerBuildOk := true, dockerPushOk := true,
    runDeployOk := true, sa := saEnvAllOk, setSecret := SecretOutcome.ok }

/-- Deploy environment where `gh secret set` exits nonzero, so
`set_secret` returns False. -/
def deployEnvSecretFail : DeployEnv :=
  { deployEnvBase with setSecret := SecretOutcome.fail }

/-- Deploy environment where the secret upload raises an exception of a
class other than CalledProcessError. -/
def deployEnvSecretExc : DeployEnv :=
  { deployEnvBase with setSecret := SecretOutcome.exc }

/-- Deploy environment where the CI/CD update step fails. -/
def deployEnvCicdFail : DeployEnv :=
  { deployEnvBase with cicdOk := false }

/-- Deploy environment where every external step fails. -/
def deployEnvAllFail : DeployEnv :=
  { redeployAnswer := false, confirmAnswer := true, cicdOk := false,
    colimaStartOk := false, dockerBuildOk := false, dockerPushOk := false,
    runDeployOk := false,
    sa := { saExists := false, saCreateOk := false,
            roleAddOk := fun _ => false, roleRemoveOk := fun _ => false,
            keyCreateOk := false },
    setSecret := SecretOutcome.fail }

/-- If `get_state` at a key is absent or false, the Python truthiness test
on it is false. -/
theorem stateTruthy_false_of_get {m : Manifest} {k : String}
    (h : ManifestManager.get_state m k ≠ some true) :
    ManifestManager.stateTruthy m k = false := by
  unfold ManifestManager.stateTruthy
  cases hg : ManifestManager.get_state m k with
  | none => rfl
  | some b =>
      cases b with
      | true => exact absurd hg h
      | false => rfl

/-- C1: After a Deploy GitHub-secrets step in which the service-account key
file was created and the secret upload reported failure by a nonzero `gh`
exit (set_secret returning False), the step returns failure with the local
key file sa-key.json still present on disk — the unconditional-deletion
claim fails for this failure mode.  By contrast, the exception path and the
success path do delete the file. -/
theorem setup_github_secrets_leaks_key_on_upload_failure :
    (DeployManager.setup_github_secrets deployEnvSecretFail 0 cfg0
        (ManifestManager.initialManifest 0) false).ok = false ∧
    (DeployManager.setup_github_secrets deployEnvSecretFail 0 cfg0
        (ManifestManager.initialManifest 0) false).keyFileExists = true ∧
    (DeployManager.setup_github_secrets deployEnvSecretExc 0 cfg0
        (ManifestManager.initialManifest 0) false).keyFileExists = false ∧
    (DeployManager.setup_github_secrets deployEnvBase 0 cfg0
        (ManifestManager.initialManifest 0) false).ok = true ∧
    (DeployManager.setup_github_secrets deployEnvBase 0 cfg0
        (ManifestManager.initialManifest 0) false).keyFileExists = false := by
  decide

/-- C2: On a ledger where the deployed flag is absent or false, a confirmed
Deploy run whose CI-update step fails returns failure, leaves the ledger
exactly as it was (so the deployed flag stays absent/false and no operation
record is appended), and attempts no later step: the only call made is the
CI/CD file rewrite. -/
theorem deploy_cicd_failure_aborts_clean :
    ∀ (env : DeployEnv) (now : Nat) (cfg : ProjectCfg) (regionOpt : Option String)
      (m : Manifest),
      ManifestManager.get_state m "deployed" ≠ some true →
      env.confirmAnswer = true →
      env.cicdOk = false →
      (DeployManager.deploy env now cfg regionOpt m).ok = false ∧
      (DeployManager.deploy env now cfg regionOpt m).manifest = m ∧
      (DeployManager.deploy env now cfg regionOpt m).calls = [GCall.cicdWrite] := by
  intro env now cfg regionOpt m hd hc hcicd
  have ht := stateTruthy_false_of_get hd
  simp [DeployManager.deploy, DeployManager.update_cicd, ht, hc, hcicd]

/-- C2 witness: the fresh-ledger us-east1 scenario at concrete inputs. -/
theorem deploy_cicd_failure_aborts_clean_witness :
    (DeployManager.deploy deployEnvCicdFail 0 cfg0 (some "us-east1")
        (ManifestManager.initialManifest 0)).ok = false ∧
    (DeployManager.deploy deployEnvCicdFail 0 cfg0 (some "us-east1")
        (ManifestManager.initialManifest 0)).manifest =
      ManifestManager.initialManifest 0 ∧
    (DeployManager.deploy deployEnvCicdFail 0 cfg0 (some "us-east1")
        (ManifestManager.initialManifest 0)).calls = [GCall.cicdWrite] :=
  deploy_cicd_failure_aborts_clean deployEnvCicdFail 0 cfg0 (some "us-east1")
    (ManifestManager.initialManifest 0) (by decide) rfl rfl

/-- C6: When the existence probe reports the service account present,
`create` makes no creation call (its only call is the describe probe),
appends exactly one operation record whose details carry the
already_exists status, leaves state/config/created_at untouched, and
returns success. -/
theorem sa_create_idempotent_when_exists :
    ∀ (env : SAEnv) (now : Nat) (cfg : ProjectCfg) (m : Manifest),
      env.saExists = true →
      (ServiceAccountManager.create env now cfg m).ok = true ∧
      (ServiceAccountManager.create env now cfg m).manifest.operations =
        m.operations ++ [OpRecord.mk now "create_service_account"
          [("email", DVal.s cfg.service_account_email),
           ("status", DVal.s "already_exists")]] ∧
      (ServiceAccountManager.create env now cfg m).manifest.state = m.state ∧
      (ServiceAccountManager.create env now cfg m).manifest.config = m.config ∧
      (ServiceAccountManager.create env now cfg m).manifest.created_at = m.created_at ∧
      (ServiceAccountManager.create env now cfg m).calls = [GCall.saDescribe] ∧
      GCall.saCreate ∉ (ServiceAccountManager.create env now cfg m).calls := by
  intro env now cfg m h
  simp [ServiceAccountManager.create, h, ManifestManager.log_operation]

/-- C6 witness: the already-exists scenario at concrete inputs. -/
theorem sa_create_idempotent_when_exists_witness :
    (ServiceAccountManager.create saEnvExists 0 cfg0
        (ManifestManager.initialManifest 0)).ok = true ∧
    (ServiceAccountManager.create saEnvExists 0 cfg0
        (ManifestManager.initialManifest 0)).manifest.operations =
      (ManifestManager.initialManifest 0).operations ++
        [OpRecord.mk 0 "create_service_account"
          [("email", DVal.s cfg0.service_account_email),
           ("status", DVal.s "already_exists")]] ∧
    (ServiceAccountManager.create saEnvExists 0 cfg0
        (ManifestManager.initialManifest 0)).manifest.state =
      (ManifestManager.initialManifest 0).state ∧
    (ServiceAccountManager.create saEnvExists 0 cfg0
        (ManifestManager.initialManifest 0)).manifest.config =
      (ManifestManager.initialManifest 0).config ∧
    (ServiceAccountManager.create saEnvExists 0 cfg0
        (ManifestManager.initialManifest 0)).manifest.created_at =
      (ManifestManager.initialManifest 0).created_at ∧
    (ServiceAccountManager.create saEnvExists 0 cfg0
        (ManifestManager.initialManifest 0)).calls = [GCall.saDescribe] ∧
    GCall.saCreate ∉ (ServiceAccountManager.create saEnvExists 0 cfg0
        (ManifestManager.initialManifest 0)).calls :=
  sa_create_idempotent_when_exists saEnvExists 0 cfg0
    (ManifestManager.initialManifest 0) rfl

/-- C7 counterexample: `reset_manifest` is an operation of the ledger store
that removes existing records — the record appended before the reset is
gone afterwards, so the no-removal half of the claim is false as stated. -/
theorem reset_removes_existing_records :
    ({ timestamp := 0, operation := "cleanup", details := [] } : OpRecord) ∈
      (ManifestManager.log_operation 0 "cleanup" []
        (ManifestManager.initialManifest 0)).operations ∧
    ({ timestamp := 0, operation := "cleanup", details := [] } : OpRecord) ∉
      (ManifestManager.reset_manifest 1
        (ManifestManager.log_operation 0 "cleanup" []
          (ManifestManager.initialManifest 0))).operations := by
  decide

/-- C7 amended: one `log_operation` call appends exactly one record and
preserves the prior records byte-identically in order; `update_state` and
`update_config` never touch the operations list; the only removal is the
explicit `reset_manifest`, which clears the whole history. -/
theorem log_operation_append_only :
    (∀ (m : Manifest) (now : Nat) (op : String) (d : List (String × DVal)),
      (ManifestManager.log_operation now op d m).operations =
        m.operations ++ [{ timestamp := now, operation := op, details := d }]) ∧
    (∀ (m : Manifest) (k : String) (v : Bool),
      (ManifestManager.update_state k v m).operations = m.operations) ∧
    (∀ (m : Manifest) (k : String) (v : String),
      (ManifestManager.update_config k v m).operations = m.operations) ∧
    (∀ (m : Manifest) (now : Nat),
      (ManifestManager.reset_manifest now m).operations = []) :=
  ⟨fun _ _ _ _ => rfl, fun _ _ _ => rfl, fun _ _ _ => rfl, fun _ _ => rfl⟩

/-- C9 counterexample: resetting a ledger created at time 0 at time 1 leaves
a ledger whose created_at is 1 — reset rewrites the creation timestamp, so
created_at is not immutable across all ledger operations. -/
theorem reset_changes_created_at :
    (ManifestManager.reset_manifest 1 (ManifestManager.initialManifest 0)).created_at ≠
      (ManifestManager.initialManifest 0).created_at := by
  decide

/-- C9 amended: created_at is written at first creation, is untouched when
the manifest already exists, and is preserved by logging and by state and
config updates; the one exception is `reset_manifest`, which deletes the
ledger and recreates it with a fresh created_at. -/
theorem created_at_immutable_except_reset :
    (∀ (m : Manifest) (now : Nat),
      ManifestManager.ensure_manifest_exists now (some m) = m) ∧
    (∀ (now : Nat),
      (ManifestManager.ensure_manifest_exists now none).created_at = now) ∧
    (∀ (m : Manifest) (now : Nat) (op : String) (d : List (String × DVal)),
      (ManifestManager.log_operation now op d m).created_at = m.created_at) ∧
    (∀ (m : Manifest) (k : String) (v : Bool),
      (ManifestManager.update_state k v m).created_at = m.created_at) ∧
    (∀ (m : Manifest) (k : String) (v : String),
      (ManifestManager.update_config k v m).created_at = m.created_at) ∧
    (∀ (m : Manifest) (now : Nat),
      (ManifestManager.reset_manifest now m).created_at = now) :=
  ⟨fun _ _ => rfl, fun _ => rfl, fun _ _ _ _ => rfl, fun _ _ _ => rfl,
   fun _ _ _ => rfl, fun _ _ => rfl⟩

/-- C10: The default role set granted by add_permissions (three roles) is
not the default role set revoked by remove_permissions (five roles,
including run.admin and storage.admin); with default arguments,
remove_permissions issues revocation calls for roles that the default
add_permissions never granted. -/
theorem default_remove_roles_exceed_default_add_roles :
    ServiceAccountManager.defaultAddRoles ≠ ServiceAccountManager.defaultRemoveRoles ∧
    ServiceAccountManager.defaultAddRoles.length = 3 ∧
    ServiceAccountManager.defaultRemoveRoles.length = 5 ∧
    "roles/run.admin" ∈ ServiceAccountManager.defaultRemoveRoles ∧
    "roles/run.admin" ∉ ServiceAccountManager.defaultAddRoles ∧
    "roles/storage.admin" ∈ ServiceAccountManager.defaultRemoveRoles ∧
    "roles/storage.admin" ∉ ServiceAccountManager.defaultAddRoles ∧
    (ServiceAccountManager.remove_permissions saEnvAllOk 0 cfg0 none
        (ManifestManager.initialManifest 0)).calls =
      ServiceAccountManager.defaultRemoveRoles.map GCall.removeRole ∧
    (ServiceAccountManager.add_permissions saEnvAllOk 0 cfg0 none
        (ManifestManager.initialManifest 0)).calls =
      ServiceAccountManager.defaultAddRoles.map GCall.addRole ∧
    GCall.removeRole "roles/run.admin" ∈
      (ServiceAccountManager.remove_permissions saEnvAllOk 0 cfg0 none
        (ManifestManager.initialManifest 0)).calls ∧
    GCall.addRole "roles/run.admin" ∉
      (ServiceAccountManager.add_permissions saEnvAllOk 0 cfg0 none
        (ManifestManager.initialManifest 0)).calls := by
  decide

@[simp]
theorem get_state_log_operation (now : Nat) (op : String) (d : List (String × DVal))
    (m : Manifest) (k : String) :
    ManifestManager.get_state (ManifestManager.log_operation now op d m) k =
      ManifestManager.get_state m k := rfl

@[simp]
theorem get_state_update_config (k1 : String) (v : String) (m : Manifest) (k : String) :
    ManifestManager.get_state (ManifestManager.update_config k1 v m) k =
      ManifestManager.get_state m k := rfl

@[simp]
theorem get_state_update_state_self (k : String) (v : Bool) (m : Manifest) :
    ManifestManager.get_state (ManifestManager.update_state k v m) k = some v :=
  dictGet_dictSet_self m.state k v

/-- C5: Each recognized state flag is written true only after every external
call of its step succeeded, and on any failure of the step the flag is left
exactly as it was.  One conjunct per step: docker_built
(build_and_push_docker), deployed (deploy_to_cloud_run),
service_account_created (ServiceAccountManager.setup),
github_secrets_configured (setup_github_secrets), initialized
(InitManager initialization). -/
theorem flags_set_only_after_success :
    (∀ (env : DeployEnv) (now : Nat) (cfg : ProjectCfg) (m : Manifest),
      ((DeployManager.build_and_push_docker env now cfg m).ok = false →
        ManifestManager.get_state
          (DeployManager.build_and_push_docker env now cfg m).manifest "docker_built" =
          ManifestManager.get_state m "docker_built") ∧
      (ManifestManager.get_state m "docker_built" ≠ some true →
        ManifestManager.get_state
          (DeployManager.build_and_push_docker env now cfg m).manifest "docker_built" =
            some true →
        (DeployManager.build_and_push_docker env now cfg m).ok = true ∧
        env.colimaStartOk = true ∧ env.dockerBuildOk = true ∧ env.dockerPushOk = true)) ∧
    (∀ (env : DeployEnv) (now : Nat) (cfg : ProjectCfg) (region : String) (m : Manifest),
      ((DeployManager.deploy_to_cloud_run env now cfg region m).ok = false →
        ManifestManager.get_state
          (DeployManager.deploy_to_cloud_run env now cfg region m).manifest "deployed" =
          ManifestManager.get_state m "deployed") ∧
      (ManifestManager.get_state m "deployed" ≠ some true →
        ManifestManager.get_state
          (DeployManager.deploy_to_cloud_run env now cfg region m).manifest "deployed" =
            some true →
        (DeployManager.deploy_to_cloud_run env now cfg region m).ok = true ∧
        env.runDeployOk = true)) ∧
    (∀ (env : SAEnv) (now : Nat) (cfg : ProjectCfg) (m : Manifest),
      ((ServiceAccountManager.setup env now cfg m).ok = false →
        ManifestManager.get_state
          (ServiceAccountManager.setup env now cfg m).manifest "service_account_created" =
          ManifestManager.get_state m "service_account_created") ∧
      (ManifestManager.get_state m "service_account_created" ≠ some true →
        ManifestManager.get_state
          (ServiceAccountManager.setup env now cfg m).manifest "service_account_created" =
            some true →
        (ServiceAccountManager.setup env now cfg m).ok = true ∧
        (ServiceAccountManager.create env now cfg m).ok = true ∧
        (ServiceAccountManager.add_permissions env now cfg none
          (ServiceAccountManager.create env now cfg m).manifest).ok = true)) ∧
    (∀ (env : DeployEnv) (now : Nat) (cfg : ProjectCfg) (m : Manifest) (fs0 : Bool),
      ((DeployManager.setup_github_secrets env now cfg m fs0).ok = false →
        ManifestManager.get_state
          (DeployManager.setup_github_secrets env now cfg m fs0).manifest
            "github_secrets_configured" =
          ManifestManager.get_state m "github_secrets_configured") ∧
      (ManifestManager.get_state m "github_secrets_configured" ≠ some true →
        ManifestManager.get_state
          (DeployManager.setup_github_secrets env now cfg m fs0).manifest
            "github_secrets_configured" = some true →
        (DeployManager.setup_github_secrets env now cfg m fs0).ok = true ∧
        env.sa.keyCreateOk = true ∧ env.setSecret = SecretOutcome.ok)) ∧
    (∀ (env : InitEnv) (now : Nat) (cfg : ProjectCfg) (m : Manifest),
      ((InitManager.initializeProject env now cfg m).ok = false →
        ManifestManager.get_state
          (InitManager.initializeProject env now cfg m).manifest "initialized" =
          ManifestManager.get_state m "initialized") ∧
      (ManifestManager.get_state m "initialized" ≠ some true →
        ManifestManager.get_state
          (InitManager.initializeProject env now cfg m).manifest "initialized" =
            some true →
        (InitManager.initializeProject env now cfg m).ok = true ∧
        env.updateFilesOk = true ∧ env.frontendOk = true ∧ env.backendOk = true)) := by
  refine ⟨fun env now cfg m => ⟨?_, ?_⟩, fun env now cfg region m => ⟨?_, ?_⟩,
    fun env now cfg m => ⟨?_, ?_⟩, fun env now cfg m fs0 => ⟨?_, ?_⟩,
    fun env now cfg m => ⟨?_, ?_⟩⟩
  · intro hok
    by_cases h1 : env.colimaStartOk <;> by_cases h2 : env.dockerBuildOk <;>
      by_cases h3 : env.dockerPushOk <;>
      simp_all [DeployManager.build_and_push_docker]
  · intro hne htrue
    by_cases h1 : env.colimaStartOk <;> by_cases h2 : env.dockerBuildOk <;>
      by_cases h3 : env.dockerPushOk <;>
      simp_all [DeployManager.build_and_push_docker]
  · intro hok
    by_cases h1 : env.runDeployOk <;>
      simp_all [DeployManager.deploy_to_cloud_run]
  · intro hne htrue
    by_cases h1 : env.runDeployOk <;>
      simp_all [DeployManager.deploy_to_cloud_run]
  · intro hok
    by_cases h1 : env.saExists <;> by_cases h2 : env.saCreateOk <;>
      by_cases h3 : rolesAllOk env.roleAddOk ServiceAccountManager.defaultAddRoles <;>
      simp_all [ServiceAccountManager.setup, ServiceAccountManager.create,
        ServiceAccountManager.add_permissions]
  · intro hne htrue
    by_cases h1 : env.saExists <;> by_cases h2 : env.saCreateOk <;>
      by_cases h3 : rolesAllOk env.roleAddOk ServiceAccountManager.defaultAddRoles <;>
      simp_all [ServiceAccountManager.setup, ServiceAccountManager.create,
        ServiceAccountManager.add_permissions]
  · intro hok
    by_cases h1 : env.sa.keyCreateOk <;> cases hs : env.setSecret <;>
      simp_all [DeployManager.setup_github_secrets, ServiceAccountManager.create_key]
  · intro hne htrue
    by_cases h1 : env.sa.keyCreateOk <;> cases hs : env.setSecret <;>
      simp_all [DeployManager.setup_github_secrets, ServiceAccountManager.create_key]
  · intro hok
    simp only [InitManager.initializeProject] at *
    split_ifs at * <;> simp_all
  · intro hne htrue
    simp only [InitManager.initializeProject] at *
    split_ifs at * <;> simp_all

/-- C5 witness: the docker conjunct at a concrete failing environment —
when colima fails to start the docker_built flag is untouched. -/
theorem flags_set_only_after_success_witness :
    ManifestManager.get_state
      (DeployManager.build_and_push_docker deployEnvAllFail 0 cfg0
        (ManifestManager.initialManifest 0)).manifest "docker_built" =
      ManifestManager.get_state (ManifestManager.initialManifest 0) "docker_built" :=
  (flags_set_only_after_success.1 deployEnvAllFail 0 cfg0
    (ManifestManager.initialManifest 0)).1 (by decide)

/-- All external executables used by the Clean workflow are present, so
every command completes with an exit status instead of raising
FileNotFoundError. -/
def CleanEnv.allToolsPresent (env : CleanEnv) : Bool :=
  env.ghRepoView.completes && env.ghRepoDelete.completes && env.dockerPs.completes &&
  env.dockerStop.completes && env.dockerRmi.completes &&
  env.runServicesDelete.completes && env.saDelete.completes

theorem cleanup_github_completes (env : CleanEnv)
    (h1 : env.ghRepoView.completes = true) (h2 : env.ghRepoDelete.completes = true) :
    ∃ b cs, CleanManager.cleanup_github env = Except.ok (b, cs) := by
  cases hv : env.ghRepoView <;> cases hd : env.ghRepoDelete <;>
    simp_all [CleanManager.cleanup_github, CmdOutcome.completes]

theorem stop_container_completes (env : CleanEnv)
    (h1 : env.dockerPs.completes = true) (h2 : env.dockerStop.completes = true) :
    ∃ cs, CleanManager.stop_container env = Except.ok cs := by
  cases hp : env.dockerPs <;> cases hs : env.dockerStop <;>
    by_cases hf : env.containersFound <;>
    simp_all [CleanManager.stop_container, CmdOutcome.completes]

theorem cleanup_docker_completes (env : CleanEnv)
    (h1 : env.dockerPs.completes = true) (h2 : env.dockerStop.completes = true)
    (h3 : env.dockerRmi.completes = true) :
    ∃ b cs, CleanManager.cleanup_docker env = Except.ok (b, cs) := by
  obtain ⟨cs0, hcs0⟩ := stop_container_completes env h1 h2
  cases hr : env.dockerRmi <;>
    simp_all [CleanManager.cleanup_docker, CmdOutcome.completes]

theorem cleanup_gcp_completes (env : CleanEnv) (now : Nat) (cfg : ProjectCfg)
    (m : Manifest)
    (h1 : env.runServicesDelete.completes = true) (h2 : env.saDelete.completes = true) :
    ∃ m2 cs, CleanManager.cleanup_gcp env now cfg m = Except.ok (m2, cs) := by
  cases hr : env.runServicesDelete <;> cases hs : env.saDelete <;>
    by_cases hd : ManifestManager.stateTruthy m "deployed" <;>
    by_cases hsa : ManifestManager.stateTruthy m "service_account_created" <;>
    simp_all [CleanManager.cleanup_gcp, CmdOutcome.completes]

/-- When the confirmation is given and every external tool is present, every
phase of clean runs and clean returns success; with skip_local the final
manifest is the reset one. -/
theorem clean_completes_core (env : CleanEnv) (now : Nat) (cfg : ProjectCfg)
    (skip_local : Bool) (m : Manifest)
    (hc : env.confirmProject = true) (hall : env.allToolsPresent = true) :
    ∃ m2 cs, CleanManager.clean env now cfg skip_local m =
      { result := some true,
        manifest := if skip_local then ManifestManager.reset_manifest now m2 else m2,
        phases := ⟨true, true, true, true⟩,
        calls := cs } := by
  simp only [CleanEnv.allToolsPresent, Bool.and_eq_true] at hall
  obtain ⟨⟨⟨⟨⟨⟨hv, hd⟩, hps⟩, hst⟩, hrmi⟩, hrun⟩, hsa⟩ := hall
  obtain ⟨b1, cs1, h1⟩ := cleanup_github_completes env hv hd
  obtain ⟨b2, cs2, h2⟩ := cleanup_docker_completes env hps hst hrmi
  obtain ⟨m2, cs3, h3⟩ :=
    cleanup_gcp_completes env now cfg
      (ManifestManager.log_operation now "cleanup" [("type", DVal.s "full")] m) hrun hsa
  refine ⟨m2,
    if skip_local then cs1 ++ cs2 ++ cs3
    else cs1 ++ cs2 ++ cs3 ++ (CleanManager.cleanup_local env).2, ?_⟩
  cases skip_local <;> simp [CleanManager.clean, hc, h1, h2, h3]

/-- Clean environment in which the gh executable is missing: the GitHub
phase raises FileNotFoundError (get_repo_name only catches
CalledProcessError) and the exception escapes clean. -/
def cleanEnvGhMissing : CleanEnv :=
  { confirmProject := true, localConfirm := true,
    ghRepoView := CmdOutcome.missing, ghRepoDelete := CmdOutcome.ok,
    dockerPs := CmdOutcome.ok, containersFound := false,
    dockerStop := CmdOutcome.ok, dockerRmi := CmdOutcome.ok,
    runServicesDelete := CmdOutcome.ok, saDelete := CmdOutcome.ok,
    rmtreeOk := true, gitCloneOk := true }

/-- Clean environment in which every prompt is answered and every external
command succeeds. -/
def cleanEnvAllOk : CleanEnv :=
  { confirmProject := true, localConfirm := true,
    ghRepoView := CmdOutcome.ok, ghRepoDelete := CmdOutcome.ok,
    dockerPs := CmdOutcome.ok, containersFound := true,
    dockerStop := CmdOutcome.ok, dockerRmi := CmdOutcome.ok,
    runServicesDelete := CmdOutcome.ok, saDelete := CmdOutcome.ok,
    rmtreeOk := true, gitCloneOk := true }

/-- Clean environment in which several sub-steps fail with nonzero exits
but every executable is present. -/
def cleanEnvSubFail : CleanEnv :=
  { cleanEnvAllOk with
    ghRepoView := CmdOutcome.err,
    dockerRmi := CmdOutcome.err,
    runServicesDelete := CmdOutcome.err,
    saDelete := CmdOutcome.err }

/-- C3 counterexample: in a confirmed clean run where the gh executable is
missing, the error raised inside the GitHub phase is not contained: clean
propagates the exception (result none) and neither the Docker phase, the
GCP phase, nor the final phase is attempted. -/
theorem clean_gh_missing_blocks_later_phases :
    (CleanManager.clean cleanEnvGhMissing 0 cfg0 true
        (ManifestManager.initialManifest 0)).phases.github = true ∧
    (CleanManager.clean cleanEnvGhMissing 0 cfg0 true
        (ManifestManager.initialManifest 0)).result = none ∧
    (CleanManager.clean cleanEnvGhMissing 0 cfg0 true
        (ManifestManager.initialManifest 0)).phases.docker = false ∧
    (CleanManager.clean cleanEnvGhMissing 0 cfg0 true
        (ManifestManager.initialManifest 0)).phases.gcp = false ∧
    (CleanManager.clean cleanEnvGhMissing 0 cfg0 true
        (ManifestManager.initialManifest 0)).phases.finalPhase = false := by
  decide

/-- C3 amended: in every confirmed clean run in which each external command
completes with an exit status (no executable is missing), failures reported
by the sub-steps are contained in their phase: all of the GitHub, Docker,
GCP, and final phases are attempted and clean returns success.  Failure
outcomes that raise an exception class no sub-step catches (a missing
executable) escape and abort the remaining phases, as the counterexample
shows. -/
theorem clean_attempts_all_phases_when_tools_present :
    ∀ (env : CleanEnv) (now : Nat) (cfg : ProjectCfg) (skip_local : Bool) (m : Manifest),
      env.confirmProject = true → env.allToolsPresent = true →
      (CleanManager.clean env now cfg skip_local m).phases = ⟨true, true, true, true⟩ ∧
      (CleanManager.clean env now cfg skip_local m).result = some true := by
  intro env now cfg skip_local m hc hall
  obtain ⟨m2, cs, h⟩ := clean_completes_core env now cfg skip_local m hc hall
  rw [h]
  exact ⟨rfl, rfl⟩

/-- C3 witness: a confirmed run with failing sub-steps but all tools present
attempts every phase. -/
theorem clean_attempts_all_phases_when_tools_present_witness :
    (CleanManager.clean cleanEnvSubFail 0 cfg0 false
        (ManifestManager.initialManifest 0)).phases = ⟨true, true, true, true⟩ ∧
    (CleanManager.clean cleanEnvSubFail 0 cfg0 false
        (ManifestManager.initialManifest 0)).result = some true :=
  clean_attempts_all_phases_when_tools_present cleanEnvSubFail 0 cfg0 false
    (ManifestManager.initialManifest 0) rfl (by decide)

/-- C4: reset always yields the canonical empty shape (empty operations,
the five recognized flags false, empty config), whatever was in the ledger
before; and every confirmed skip-local clean run whose external commands
complete (with success or failure) ends with the ledger in that canonical
empty shape and returns success. -/
theorem reset_yields_canonical_empty_shape :
    (∀ (m : Manifest) (now : Nat),
      canonicalEmpty (ManifestManager.reset_manifest now m)) ∧
    (∀ (env : CleanEnv) (now : Nat) (cfg : ProjectCfg) (m : Manifest),
      env.confirmProject = true → env.allToolsPresent = true →
      canonicalEmpty ((CleanManager.clean env now cfg true m).manifest) ∧
      (CleanManager.clean env now cfg true m).result = some true) := by
  constructor
  · intro m now
    exact ⟨rfl, rfl, rfl⟩
  · intro env now cfg m hc hall
    obtain ⟨m2, cs, h⟩ := clean_completes_core env now cfg true m hc hall
    rw [h]
    exact ⟨⟨rfl, rfl, rfl⟩, rfl⟩

/-- C4 witness: a confirmed skip-local clean on a deployed ledger with
several failing sub-steps still ends in the canonical empty shape. -/
theorem reset_yields_canonical_empty_shape_witness :
    canonicalEmpty ((CleanManager.clean cleanEnvSubFail 0 cfg0 true
      (ManifestManager.update_state "service_account_created" true
        (ManifestManager.update_state "deployed" true
          (ManifestManager.initialManifest 0)))).manifest) ∧
    (CleanManager.clean cleanEnvSubFail 0 cfg0 true
      (ManifestManager.update_state "service_account_created" true
        (ManifestManager.update_state "deployed" true
          (ManifestManager.initialManifest 0)))).result = some true :=
  reset_yields_canonical_empty_shape.2 cleanEnvSubFail 0 cfg0
    (ManifestManager.update_state "service_account_created" true
      (ManifestManager.update_state "deployed" true
        (ManifestManager.initialManifest 0))) rfl (by decide)

/-- C8: Re-running Init on a ledger whose initialized flag is true, with the
operator declining the re-initialization prompt, returns failure with the
ledger unchanged and with an empty list of external calls and local file
mutations. -/
theorem init_decline_has_no_side_effects :
    ∀ (env : InitEnv) (now : Nat) (cfg : ProjectCfg) (m : Manifest),
      ManifestManager.get_state m "initialized" = some true →
      env.reinitAnswer = false →
      InitManager.initializeProject env now cfg m =
        { ok := false, manifest := m, calls := [] } := by
  intro env now cfg m h ha
  simp [InitManager.initializeProject, ManifestManager.stateTruthy, h, ha]

/-- C8 witness: declining on an initialized ledger at concrete inputs. -/
theorem init_decline_has_no_side_effects_witness :
    InitManager.initializeProject ⟨false, true, true, true⟩ 0 cfg0
        (ManifestManager.update_state "initialized" true
          (ManifestManager.initialManifest 0)) =
      { ok := false,
        manifest := ManifestManager.update_state "initialized" true
          (ManifestManager.initialManifest 0),
        calls := [] } :=
  init_decline_has_no_side_effects ⟨false, true, true, true⟩ 0 cfg0
    (ManifestManager.update_state "initialized" true
      (ManifestManager.initialManifest 0)) (by decide) rfl
